import Mathlib

/-!
Verification of the real-time messaging core of the bookStore backend.

Shallow embedding of the current revisions of the source:
  - `src/socket/index.js`       (socket handlers: send_message, mark_messages_read,
                                 delete_message, typing relays)
  - `src/routes/messageRoutes.js` (GET /messages/:otherUserId, POST /messages,
                                 POST /messages/voice, POST /messages/encrypted-voice,
                                 DELETE /messages/:messageId)
  - `src/lib/pushNotifications.js` (sendExpoPush)
  - `src/models/messageModel.js`, `src/models/userModel.js` (schemas)

Modelling conventions:
  - MongoDB documents are records in a list; `_id` values are natural numbers
    assigned from a `nextId` counter, so ids are unique in any database built
    by the operations themselves.
  - JavaScript string fields that default to `""` in the schema (publicKey,
    senderPublicKey, encryptedMessage, nonce, expoPushToken) are modelled as
    `String` with `""` playing the role of the falsy absent value, exactly as
    the code's truthiness tests (`if (cipherText && nonce)`) treat them.
  - Timestamps are naturals (epoch milliseconds); `new Date(s)` parsing is
    modelled by `parseDateJS`, which accepts decimal digit strings and rejects
    everything else, mirroring the parse-or-NaN split in the code.
  - Socket emits and push-dispatch attempts are collected in an `Emit` trace
    list; network delivery itself is outside the model.
-/

/-- A stored voice attachment (`voiceMessage` subdocument of the message schema). -/
structure VoiceMsg where
  url : String
  duration : Nat
  cloudinaryPublicId : Option String
deriving Repr, DecidableEq

/-- The `encryptedVoiceMessage` subdocument created by POST /messages/encrypted-voice. -/
structure EncVoiceData where
  cipherText : String
  nonce : String
  senderPublicKey : String
  duration : Nat
deriving Repr, DecidableEq

/-- A message document (`messageModel` schema: sender, receiver, text, voiceMessage,
encrypted fields, isEncrypted, read, timestamps). -/
structure Message where
  id : Nat
  sender : String
  receiver : String
  text : String
  voiceMessage : Option VoiceMsg
  encryptedMessage : String
  nonce : String
  senderPublicKey : String
  isEncrypted : Bool
  encryptedVoiceMessage : Option EncVoiceData
  read : Bool
  createdAt : Nat
deriving Repr, DecidableEq

/-- A user document (`userModel` schema fields consumed by the messaging core). -/
structure User where
  id : String
  username : String
  blockedUsers : List String
  publicKey : String
  e2eeEnabled : Bool
  expoPushToken : String
deriving Repr, DecidableEq

/-- The persistent state: user directory and message store, plus the id counter
and the current clock used to stamp `createdAt`. -/
structure DB where
  users : List User
  messages : List Message
  nextId : Nat
  now : Nat
deriving Repr, DecidableEq

/-- `userModel.findById` on the modelled directory. -/
def findUser (db : DB) (uid : String) : Option User :=
  db.users.find? (fun u => u.id = uid)

/-- `messageModel.findById` on the modelled store. -/
def findMsg (db : DB) (mid : Nat) : Option Message :=
  db.messages.find? (fun m => m.id = mid)

/-- Room naming: `` `user:${userId}` `` in both the socket and HTTP handlers. -/
def roomFor (uid : String) : String := "user:" ++ uid

/-- Observable side effects of a handler run: socket emits and push attempts. -/
inductive Emit where
  | newMessage (room : String) (msgId : Nat)
  | messagesRead (room : String) (msgIds : List Nat) (readBy : String)
  | messageDeleted (room : String) (msgId : Nat)
  | conversationCleared (room : String) (clearedBy : String)
  | typing (room : String) (start : Bool) (userId : String)
  | push (token : String) (title : String) (body : String)
  | destroyVoiceAsset (publicId : String)
deriving Repr, DecidableEq

/-- Outcome of a send operation, one constructor per distinct return in the
socket `send_message` handler, POST /messages, POST /messages/voice and
POST /messages/encrypted-voice. -/
inductive SendOutcome where
  /-- "receiverId is required" (400 / callback error). -/
  | errReceiverRequired
  /-- "Encrypted message (cipherText + nonce) or voiceMessage is required"
  (socket callback error / HTTP 403 code E2EE_REQUIRED). -/
  | errPayloadRequired
  /-- "Cannot message yourself" (socket only). -/
  | errSelfMessage
  /-- "User not found" (404). -/
  | errUserNotFound
  /-- "Recipient has not enabled E2EE yet." (403 code E2EE_NOT_ENABLED). -/
  | errE2EENotEnabled
  /-- "You are blocked from this user." (403). -/
  | errBlockedByReceiver
  /-- "You have blocked this user" (403). -/
  | errYouBlocked
  /-- "Sender public key not available" (400 code MISSING_SENDER_KEY). -/
  | errMissingSenderKey
  /-- "Invalid message format" (socket dead branch after the payload check). -/
  | errInvalidFormat
  /-- "Encrypted voice message data is required" (400, encrypted-voice route). -/
  | errEncVoiceDataRequired
  /-- "Missing encryption data (cipherText, nonce, senderPublicKey)" (400). -/
  | errEncVoiceFieldsMissing
  /-- "Voice file is required" (400, voice route). -/
  | errVoiceFileRequired
  /-- A thrown exception reached the catch-all (500 "Failed to send message"). -/
  | errServer
  /-- 201 / callback success with the persisted message id. -/
  | created (msgId : Nat)
deriving Repr, DecidableEq

/-- The body of a send request: `receiverId`, optional `voiceMessage` descriptor
and the E2EE fields, with `""` standing for a missing/falsy string field. -/
structure SendPayload where
  receiverId : String
  voiceMessage : Option VoiceMsg
  cipherText : String
  nonce : String
  senderPublicKey : String
deriving Repr, DecidableEq

/-- Append a freshly created message (mongoose `create`): stamps `createdAt`
from the clock, consumes `nextId`. -/
def persistMsg (db : DB) (m : Message) : DB :=
  { db with messages := db.messages ++ [m], nextId := db.nextId + 1 }

/-- Push fan-out step shared by the send handlers: look up the receiver's
`expoPushToken` and record one push attempt when it is set (truthy). -/
def pushIfToken (db : DB) (receiverId title body : String) : List Emit :=
  match findUser db receiverId with
  | none => []
  | some u => if u.expoPushToken ≠ "" then [Emit.push u.expoPushToken title body] else []

/-- The socket `send_message` handler (socket/index.js, current revision).
Check order is exactly the code's: receiverId presence, payload shape
(`isE2EEMessage = cipherText && nonce`, else a voiceMessage), self-messaging,
receiver existence, recipient E2EE flag for encrypted payloads, receiver's
block list, sender's block list; then persist, emit `new_message` to both
rooms, and attempt push. A missing sender document would make
`sender.blockedUsers` throw into the catch-all, modelled as `errServer`. -/
def socketSendMessage (db : DB) (userId : String) (p : SendPayload) :
    SendOutcome × DB × List Emit :=
  if p.receiverId = "" then (.errReceiverRequired, db, [])
  else
    if ¬ (p.cipherText ≠ "" ∧ p.nonce ≠ "") ∧ p.voiceMessage = none then
      (.errPayloadRequired, db, [])
    else if p.receiverId = userId then (.errSelfMessage, db, [])
    else match findUser db p.receiverId with
    | none => (.errUserNotFound, db, [])
    | some receiver =>
      if (p.cipherText ≠ "" ∧ p.nonce ≠ "") ∧ ¬ receiver.e2eeEnabled then
        (.errE2EENotEnabled, db, [])
      else if receiver.blockedUsers.contains userId then (.errBlockedByReceiver, db, [])
      else match findUser db userId with
      | none => (.errServer, db, [])
      | some sender =>
        if sender.blockedUsers.contains p.receiverId then (.errYouBlocked, db, [])
        else if p.cipherText ≠ "" ∧ p.nonce ≠ "" then
          let msg : Message :=
            { id := db.nextId, sender := userId, receiver := p.receiverId,
              text := "", voiceMessage := none,
              encryptedMessage := p.cipherText, nonce := p.nonce,
              senderPublicKey := if p.senderPublicKey ≠ "" then p.senderPublicKey else "",
              isEncrypted := true, encryptedVoiceMessage := none,
              read := false, createdAt := db.now }
          let db2 := persistMsg db msg
          let emits :=
            [Emit.newMessage (roomFor p.receiverId) msg.id,
             Emit.newMessage (roomFor userId) msg.id] ++
            pushIfToken db p.receiverId
              (if sender.username ≠ "" then sender.username else "Someone")
              "🔒 Encrypted message"
          (.created msg.id, db2, emits)
        else match p.voiceMessage with
        | some vm =>
          let msg : Message :=
            { id := db.nextId, sender := userId, receiver := p.receiverId,
              text := "", voiceMessage := some vm,
              encryptedMessage := "", nonce := "", senderPublicKey := "",
              isEncrypted := false, encryptedVoiceMessage := none,
              read := false, createdAt := db.now }
          let db2 := persistMsg db msg
          let emits :=
            [Emit.newMessage (roomFor p.receiverId) msg.id,
             Emit.newMessage (roomFor userId) msg.id] ++
            pushIfToken db p.receiverId
              (if sender.username ≠ "" then sender.username else "Someone")
              "🎤 Voice message"
          (.created msg.id, db2, emits)
        | none => (.errInvalidFormat, db, [])

/-- POST /messages (messageRoutes.js, current revision). Same shape as the
socket handler except: the self-messaging check is absent, the second
(identical, hence dead) payload check is skipped, the sender's public key is
captured on the message record (request-supplied value, else the sender's
current `publicKey`, else 400 MISSING_SENDER_KEY), and `new_message` is
emitted only to the receiver's room. -/
def httpPostMessages (db : DB) (userId : String) (p : SendPayload) :
    SendOutcome × DB × List Emit :=
  if p.receiverId = "" then (.errReceiverRequired, db, [])
  else if ¬ (p.cipherText ≠ "" ∧ p.nonce ≠ "") ∧ p.voiceMessage = none then
    (.errPayloadRequired, db, [])
  else match findUser db p.receiverId with
  | none => (.errUserNotFound, db, [])
  | some receiver =>
    if (p.cipherText ≠ "" ∧ p.nonce ≠ "") ∧ ¬ receiver.e2eeEnabled then
      (.errE2EENotEnabled, db, [])
    else if receiver.blockedUsers.contains userId then (.errBlockedByReceiver, db, [])
    else match findUser db userId with
    | none => (.errServer, db, [])
    | some sender =>
      if sender.blockedUsers.contains p.receiverId then (.errYouBlocked, db, [])
      else if p.cipherText ≠ "" ∧ p.nonce ≠ "" then
        let finalKey := if p.senderPublicKey ≠ "" then p.senderPublicKey else sender.publicKey
        if finalKey = "" then (.errMissingSenderKey, db, [])
        else
          let msg : Message :=
            { id := db.nextId, sender := userId, receiver := p.receiverId,
              text := "", voiceMessage := none,
              encryptedMessage := p.cipherText, nonce := p.nonce,
              senderPublicKey := finalKey,
              isEncrypted := true, encryptedVoiceMessage := none,
              read := false, createdAt := db.now }
          let db2 := persistMsg db msg
          let emits :=
            [Emit.newMessage (roomFor p.receiverId) msg.id] ++
            pushIfToken db p.receiverId
              (if sender.username ≠ "" then sender.username else "New message")
              "🔒 Encrypted message"
          (.created msg.id, db2, emits)
      else match p.voiceMessage with
      | some vm =>
        let msg : Message :=
          { id := db.nextId, sender := userId, receiver := p.receiverId,
            text := "", voiceMessage := some vm,
            encryptedMessage := "", nonce := "", senderPublicKey := "",
            isEncrypted := false, encryptedVoiceMessage := none,
            read := false, createdAt := db.now }
        let db2 := persistMsg db msg
        let emits :=
          [Emit.newMessage (roomFor p.receiverId) msg.id] ++
          pushIfToken db p.receiverId
            (if sender.username ≠ "" then sender.username else "New message")
            "🎤 Voice message"
        (.created msg.id, db2, emits)
      | none => (.errInvalidFormat, db, [])

/-- Body of POST /messages/encrypted-voice: `receiverId`, the
`encryptedVoiceMessage` object and the body-level `isEncrypted` flag. -/
structure EncVoicePayload where
  receiverId : String
  encryptedVoiceMessage : Option EncVoiceData
  isEncrypted : Bool
deriving Repr, DecidableEq

/-- POST /messages/encrypted-voice (messageRoutes.js, current revision).
Checks: receiverId present; `encryptedVoiceMessage` and `isEncrypted` both
truthy; cipherText/nonce/senderPublicKey all present; receiver exists; the two
block-list checks. Note: unlike the other encrypted send paths, this route
never consults the receiver's `e2eeEnabled` flag. On success it persists an
`isEncrypted` message carrying the `encryptedVoiceMessage` subdocument, emits
`new_message` to the receiver's room only, and attempts push. -/
def httpPostEncryptedVoice (db : DB) (userId : String) (p : EncVoicePayload) :
    SendOutcome × DB × List Emit :=
  if p.receiverId = "" then (.errReceiverRequired, db, [])
  else match p.encryptedVoiceMessage with
  | none => (.errEncVoiceDataRequired, db, [])
  | some ev =>
    if ¬ p.isEncrypted then (.errEncVoiceDataRequired, db, [])
    else if ev.cipherText = "" ∨ ev.nonce = "" ∨ ev.senderPublicKey = "" then
      (.errEncVoiceFieldsMissing, db, [])
    else match findUser db p.receiverId with
    | none => (.errUserNotFound, db, [])
    | some receiver =>
      if receiver.blockedUsers.contains userId then (.errBlockedByReceiver, db, [])
      else match findUser db userId with
      | none => (.errServer, db, [])
      | some sender =>
        if sender.blockedUsers.contains p.receiverId then (.errYouBlocked, db, [])
        else
          let msg : Message :=
            { id := db.nextId, sender := userId, receiver := p.receiverId,
              text := "", voiceMessage := none,
              encryptedMessage := "", nonce := "", senderPublicKey := "",
              isEncrypted := true, encryptedVoiceMessage := some ev,
              read := false, createdAt := db.now }
          let db2 := persistMsg db msg
          let emits :=
            [Emit.newMessage (roomFor p.receiverId) msg.id] ++
            pushIfToken db p.receiverId
              (if sender.username ≠ "" then sender.username else "New message")
              "🔒🎤 Encrypted voice message"
          (.created msg.id, db2, emits)

/-- POST /messages/voice (messageRoutes.js, current revision), after the
multer middleware: receiverId and an uploaded file are required, then the two
block-list checks, then the file is uploaded to cloudinary (modelled by the
`upload` parameter mapping the temp path to a secure url and an optional
public id) and the voice message is persisted. -/
def httpPostVoice (upload : String → String × Option String) (db : DB)
    (userId receiverId : String) (file : Option String) (duration : Nat) :
    SendOutcome × DB × List Emit :=
  if receiverId = "" then (.errReceiverRequired, db, [])
  else match file with
  | none => (.errVoiceFileRequired, db, [])
  | some path =>
    match findUser db receiverId with
    | none => (.errUserNotFound, db, [])
    | some receiver =>
      if receiver.blockedUsers.contains userId then (.errBlockedByReceiver, db, [])
      else match findUser db userId with
      | none => (.errServer, db, [])
      | some sender =>
        if sender.blockedUsers.contains receiverId then (.errYouBlocked, db, [])
        else
          let up := upload path
          let msg : Message :=
            { id := db.nextId, sender := userId, receiver := receiverId,
              text := "",
              voiceMessage := some { url := up.1, duration := duration,
                                     cloudinaryPublicId := up.2 },
              encryptedMessage := "", nonce := "", senderPublicKey := "",
              isEncrypted := false, encryptedVoiceMessage := none,
              read := false, createdAt := db.now }
          let db2 := persistMsg db msg
          let emits :=
            [Emit.newMessage (roomFor receiverId) msg.id] ++
            pushIfToken db receiverId
              (if sender.username ≠ "" then sender.username else "New message")
              "🎤 Voice message"
          (.created msg.id, db2, emits)

/-- The `markRead` target predicate: a message from `otherUserId` to
`userId` with `read = false`. -/
def isUnreadFrom (userId otherUserId : String) (m : Message) : Bool :=
  m.sender = otherUserId && m.receiver = userId && !m.read

/-- The ids matched by the `markRead` query (all unread messages from
`otherUserId` to `userId`; the query has no limit and no time filter). -/
def unreadIdsFrom (db : DB) (userId otherUserId : String) : List Nat :=
  (db.messages.filter (isUnreadFrom userId otherUserId)).map (fun m => m.id)

/-- The read-marking step shared verbatim by the socket `mark_messages_read`
handler and GET /messages/:otherUserId: find every unread message from
`otherUserId` to `userId`, and if there are any, set `read` on exactly those
ids and emit `messages_read` with the full id list to the sender's room. -/
def markReadStep (db : DB) (userId otherUserId : String) : DB × List Emit :=
  let ids := unreadIdsFrom db userId otherUserId
  if ids = [] then (db, [])
  else
    let marked := db.messages.map
      (fun m => if ids.contains m.id then { m with read := true } else m)
    ({ db with messages := marked },
     [Emit.messagesRead (roomFor otherUserId) ids userId])

/-- The socket `mark_messages_read` handler: a silent no-op when
`otherUserId` is missing or equals the caller, otherwise the shared
read-marking step. -/
def markMessagesRead (db : DB) (userId otherUserId : String) : DB × List Emit :=
  if otherUserId = "" ∨ otherUserId = userId then (db, [])
  else markReadStep db userId otherUserId

/-- JS `parseInt(s, 10)`: optional sign followed by a longest decimal-digit
prefix; no digits parses to NaN, modelled as `none`. -/
def parseIntJS (s : String) : Option Int :=
  let cs := s.data.dropWhile (fun c => c = ' ')
  let core : List Char → Option Nat := fun l =>
    let ds := l.takeWhile Char.isDigit
    if ds = [] then none
    else some (ds.foldl (fun a c => a * 10 + (c.toNat - 48)) 0)
  match cs with
  | '-' :: rest => (core rest).map (fun n => -(n : Int))
  | '+' :: rest => (core rest).map (fun n => (n : Int))
  | _ => (core cs).map (fun n => (n : Int))

/-- `new Date(s)` for the `before` cursor, modelled over natural timestamps:
a non-empty decimal string is a valid date (its epoch value), anything else is
an Invalid Date (`none`). -/
def parseDateJS (s : String) : Option Nat :=
  if s ≠ "" ∧ s.data.all Char.isDigit then
    some (s.data.foldl (fun a c => a * 10 + (c.toNat - 48)) 0)
  else none

/-- `Math.min(parseInt(req.query.limit, 10) || LIMIT, 100)` with `LIMIT = 50`:
a NaN or zero parse falls back to 50, then the hard ceiling 100 is applied. -/
def effectiveLimit (limitQ : String) : Int :=
  let p : Int := match parseIntJS limitQ with
    | none => 50
    | some v => if v = 0 then 50 else v
  min p 100

/-- The optional `createdAt < before` filter of the history query: applied
only when the `before` parameter is present (truthy) and parses to a valid
date; otherwise every timestamp passes. -/
def beforeFilter (beforeQ : String) (t : Nat) : Bool :=
  if beforeQ = "" then true
  else match parseDateJS beforeQ with
    | none => true
    | some d => decide (t < d)

/-- The `$or` conversation-pair condition of the history query. -/
def pairMatch (userId otherUserId : String) (m : Message) : Bool :=
  (m.sender = userId && m.receiver = otherUserId) ||
  (m.sender = otherUserId && m.receiver = userId)

/-- Insert into a list sorted by descending `createdAt` (used to model the
`sort({ createdAt: -1 })` of the history query). -/
def insertDesc (m : Message) : List Message → List Message
  | [] => [m]
  | x :: xs => if m.createdAt ≤ x.createdAt then x :: insertDesc m xs else m :: x :: xs

/-- Sort messages newest-first by `createdAt`. -/
def sortDesc (l : List Message) : List Message := l.foldr insertDesc []

/-- The per-message normalization of GET /messages/:otherUserId: an encrypted
message without a stored `senderPublicKey` is filled in from the populated
sender's current `publicKey` when that is set. -/
def normalizeMsg (db : DB) (m : Message) : Message :=
  if m.isEncrypted ∧ m.senderPublicKey = "" then
    match findUser db m.sender with
    | some u => if u.publicKey ≠ "" then { m with senderPublicKey := u.publicKey } else m
    | none => m
  else m

/-- Response of GET /messages/:otherUserId. -/
inductive GetResult where
  /-- 400 "Invalid other user". -/
  | badRequest
  /-- 200 with the chronological page and the `hasMore` flag. -/
  | ok (messages : List Message) (hasMore : Bool)
deriving Repr, DecidableEq

/-- GET /messages/:otherUserId?limit&before (messageRoutes.js, current
revision): reject a missing or self `otherUserId`; compute the capped limit;
filter the conversation pair, optionally strictly-before the parsed cursor;
sort newest-first, take the limit, reverse to chronological order, normalize
sender keys; then run the shared read-marking step over ALL unread messages
from the counterpart (independent of page filters); `hasMore` is
`messages.length === limit` on the pre-reversal page. A negative effective
limit (reachable through a negative `limit` query, which `Math.min` passes
through unchanged) reaches MongoDB `.limit()`, whose semantics for a negative
argument is a single batch of up to `|limit|` documents — modelled with
`Int.natAbs`. (A zero effective limit is unreachable: `|| LIMIT` replaces a
zero or NaN parse with 50.) -/
def getMessages (db : DB) (userId otherUserId beforeQ limitQ : String) :
    GetResult × DB × List Emit :=
  if otherUserId = "" ∨ otherUserId = userId then (.badRequest, db, [])
  else
    let lim := effectiveLimit limitQ
    let filtered := db.messages.filter
      (fun m => pairMatch userId otherUserId m && beforeFilter beforeQ m.createdAt)
    let page := (sortDesc filtered).take lim.natAbs
    let out := (page.reverse).map (normalizeMsg db)
    let marked := markReadStep db userId otherUserId
    (.ok out ((page.length : Int) = lim), marked.1, marked.2)

/-- Outcome of a delete-message operation (socket `delete_message` handler
and DELETE /messages/:messageId). -/
inductive DeleteOutcome where
  /-- "messageId required" (socket only; the HTTP path parameter always exists). -/
  | errMessageIdRequired
  /-- 404 "Message not found". -/
  | errNotFound
  /-- 403 "Unauthorized - You can only delete your own messages". -/
  | errUnauthorized
  /-- Deletion succeeded. -/
  | ok
deriving Repr, DecidableEq

/-- The socket `delete_message` handler: missing id, lookup, sender-only
authorization, then `findByIdAndDelete` and `message_deleted` to both rooms.
(Ids are unique by construction, so removal by id filter deletes one record.) -/
def socketDeleteMessage (db : DB) (userId : String) (messageId : Option Nat) :
    DeleteOutcome × DB × List Emit :=
  match messageId with
  | none => (.errMessageIdRequired, db, [])
  | some mid =>
    match findMsg db mid with
    | none => (.errNotFound, db, [])
    | some m =>
      if m.sender ≠ userId then (.errUnauthorized, db, [])
      else
        (.ok,
         { db with messages := db.messages.filter (fun x => x.id ≠ mid) },
         [Emit.messageDeleted (roomFor m.receiver) mid,
          Emit.messageDeleted (roomFor userId) mid])

/-- DELETE /messages/:messageId: like the socket handler but with no missing-id
case, and with best-effort cloudinary cleanup of a voice attachment before the
record is removed. -/
def httpDeleteMessage (db : DB) (userId : String) (mid : Nat) :
    DeleteOutcome × DB × List Emit :=
  match findMsg db mid with
  | none => (.errNotFound, db, [])
  | some m =>
    if m.sender ≠ userId then (.errUnauthorized, db, [])
    else
      let cleanup := match m.voiceMessage with
        | some vm => match vm.cloudinaryPublicId with
          | some pid => [Emit.destroyVoiceAsset pid]
          | none => []
        | none => []
      (.ok,
       { db with messages := db.messages.filter (fun x => x.id ≠ mid) },
       cleanup ++
       [Emit.messageDeleted (roomFor m.receiver) mid,
        Emit.messageDeleted (roomFor userId) mid])

/-- The `to` argument of `sendExpoPush`: a single token string or an array of
token strings (`Array.isArray(to) ? to : [to]`). -/
inductive PushTo where
  | single (tok : String)
  | multi (toks : List String)
deriving Repr, DecidableEq

/-- JS truthiness of the `to` argument for the `if (!to) return` guard: an
empty string is falsy, an array (even empty) is truthy. -/
def pushToFalsy : PushTo → Bool
  | .single t => t = ""
  | .multi _ => false

/-- Normalization `Array.isArray(to) ? to : [to]`. -/
def pushTokenList : PushTo → List String
  | .single t => [t]
  | .multi l => l

/-- The token filter of `sendExpoPush`: a token is attempted only when it is a
truthy string starting with `ExponentPushToken` (the JS
`token.startsWith("ExponentPushToken")` check, expressed over the character
sequence). -/
def isValidExpoToken (t : String) : Bool :=
  t ≠ "" && "ExponentPushToken".data.isPrefixOf t.data

/-- Per-token network outcome, supplied by the environment: an ok HTTP
response (optionally carrying an Expo-level per-receipt error), a non-ok HTTP
response, or a thrown exception inside the per-token task. -/
inductive PushOutcome where
  | httpOk (expoError : Option String)
  | httpFail (status : Nat) (text : String)
  | raised (msg : String)
deriving Repr, DecidableEq

/-- The per-token result object built by the handler in `sendExpoPush`:
every outcome, including a thrown exception, is converted to a value. -/
structure PushAttemptResult where
  success : Bool
  token : String
  error : Option String
deriving Repr, DecidableEq

/-- The body of the per-token async task of `sendExpoPush` (including its own
try/catch): total in the outcome, so a per-token failure yields a result
value instead of a rejection. -/
def handlePushToken (outcome : PushOutcome) (t : String) : PushAttemptResult :=
  match outcome with
  | .httpOk none => { success := true, token := t, error := none }
  | .httpOk (some e) => { success := false, token := t, error := some e }
  | .httpFail _ text => { success := false, token := t, error := some text }
  | .raised m => { success := false, token := t, error := some m }

/-- `sendExpoPush` (lib/pushNotifications.js, current revision), with network
behavior abstracted as an `outcome` oracle per token: guard on a falsy `to`,
normalize to a list, filter to valid tokens, return early when none remain,
otherwise run one handled task per valid token and resolve with `()`
regardless of the individual outcomes (the function never rejects; the
result list is internal, only logged). -/
def sendExpoPush (dest : PushTo) (outcome : String → PushOutcome) :
    Unit × List PushAttemptResult :=
  if pushToFalsy dest then ((), [])
  else
    let valid := (pushTokenList dest).filter isValidExpoToken
    if valid = [] then ((), [])
    else ((), valid.map (fun t => handlePushToken (outcome t) t))

/-- The tokens for which `sendExpoPush` performs a delivery attempt. -/
def attemptedTokens (dest : PushTo) (outcome : String → PushOutcome) : List String :=
  (sendExpoPush dest outcome).2.map (fun r => r.token)

/-! Helper lemmas about the read-marking step. -/

theorem isUnreadFrom_mark_false (u o : String) (ids : List Nat) (m : Message)
    (h : isUnreadFrom u o m = true → m.id ∈ ids) :
    ¬ isUnreadFrom u o
        (if ids.contains m.id then { m with read := true } else m) = true := by
  by_cases hc : ids.contains m.id
  · simp only [hc, if_true]
    simp [isUnreadFrom]
  · rw [if_neg hc]
    intro hu
    exact absurd (List.elem_iff.mpr (h hu)) hc

theorem unreadIdsFrom_after_map (us : List User) (ni nw : Nat)
    (msgs : List Message) (u o : String) (ids : List Nat)
    (h : ∀ x ∈ msgs, isUnreadFrom u o x = true → x.id ∈ ids) :
    unreadIdsFrom
      { users := us,
        messages := msgs.map (fun m => if ids.contains m.id then { m with read := true } else m),
        nextId := ni, now := nw } u o = [] := by
  unfold unreadIdsFrom
  rw [List.map_eq_nil_iff, List.filter_eq_nil_iff]
  intro a ha
  obtain ⟨x, hx, rfl⟩ := List.mem_map.mp ha
  exact isUnreadFrom_mark_false u o ids x (h x hx)

theorem unreadIdsFrom_markReadStep (db : DB) (u o : String) :
    unreadIdsFrom (markReadStep db u o).1 u o = [] := by
  by_cases h0 : unreadIdsFrom db u o = []
  · simp [markReadStep, h0]
  · have heq : (markReadStep db u o).1 =
        { users := db.users,
          messages := db.messages.map (fun m => if (unreadIdsFrom db u o).contains m.id then { m with read := true } else m),
          nextId := db.nextId, now := db.now } := by
      simp [markReadStep, h0]
    rw [heq]
    exact unreadIdsFrom_after_map db.users db.nextId db.now db.messages u o _
      (fun x hx hun => List.mem_map_of_mem (fun m => m.id) (List.mem_filter.mpr ⟨hx, hun⟩))

theorem markReadStep_idem (db : DB) (u o : String) :
    markReadStep (markReadStep db u o).1 u o = ((markReadStep db u o).1, []) := by
  have h := unreadIdsFrom_markReadStep db u o
  generalize (markReadStep db u o).1 = db1 at h ⊢
  simp [markReadStep, h]

theorem markReadStep_all_read (db : DB) (u o : String) :
    ∀ m ∈ (markReadStep db u o).1.messages, m.sender = o → m.receiver = u →
      m.read = true := by
  intro m hm hs hr
  have h := unreadIdsFrom_markReadStep db u o
  unfold unreadIdsFrom at h
  rw [List.map_eq_nil_iff, List.filter_eq_nil_iff] at h
  have := h m hm
  simpa [isUnreadFrom, hs, hr] using this

/-- Claim C6: for every pair of users, invoking mark-messages-read (and
likewise the markRead step of GET /messages/:otherUserId) twice in succession
with no intervening sends yields the same final read-state as invoking it
once, and the second invocation affects zero messages, so it emits no
`messages_read` notification to the original sender's room. -/
theorem mark_read_idempotent (db : DB) (u o bq lq : String) :
    (markMessagesRead (markMessagesRead db u o).1 u o
        = ((markMessagesRead db u o).1, [])) ∧
    ((getMessages (getMessages db u o bq lq).2.1 u o bq lq).2
        = ((getMessages db u o bq lq).2.1, [])) := by
  constructor
  · by_cases hg : o = "" ∨ o = u
    · simp [markMessagesRead, hg]
    · simp only [markMessagesRead, if_neg hg]
      exact markReadStep_idem db u o
  · by_cases hg : o = "" ∨ o = u
    · simp [getMessages, hg]
    · simp only [getMessages, if_neg hg]
      exact markReadStep_idem db u o

/-- Claim C10: the read-marking side effect of GET /messages/:otherUserId
flips read on ALL unread messages from the counterpart to the requester, not
only those in the returned page: the marking and the `messages_read`
notification are independent of the `limit` and `before` parameters, and the
notification carries the ids of every previously-unread message from the
counterpart. -/
theorem get_marks_all_unread (db : DB) (u o bq lq : String)
    (h1 : o ≠ "") (h2 : o ≠ u) :
    (∀ m ∈ (getMessages db u o bq lq).2.1.messages,
        m.sender = o → m.receiver = u → m.read = true) ∧
    (∀ bq2 lq2, (getMessages db u o bq2 lq2).2 = (getMessages db u o bq lq).2) ∧
    ((getMessages db u o bq lq).2.2
        = if unreadIdsFrom db u o = [] then []
          else [Emit.messagesRead (roomFor o) (unreadIdsFrom db u o) u]) := by
  have hg : ¬(o = "" ∨ o = u) := by
    intro hor
    rcases hor with h | h
    · exact h1 h
    · exact h2 h
  refine ⟨?_, ?_, ?_⟩
  · have he : (getMessages db u o bq lq).2.1 = (markReadStep db u o).1 := by
      simp [getMessages, hg]
    rw [he]
    exact markReadStep_all_read db u o
  · intro bq2 lq2
    simp [getMessages, hg]
  · have he : (getMessages db u o bq lq).2.2 = (markReadStep db u o).2 := by
      simp [getMessages, hg]
    rw [he, markReadStep]
    by_cases h0 : unreadIdsFrom db u o = []
    · simp [h0]
    · simp [h0]

/-- Claim C10 witness: a concrete request with `limit=1` marks the message
that falls outside the returned page. -/
theorem get_marks_all_unread_witness :
    ("alice" ≠ "" ∧ ("alice" : String) ≠ "bob") ∧
    (∀ m ∈ (getMessages
        { users := [], messages :=
            [{ id := 1, sender := "alice", receiver := "bob", text := "a",
               voiceMessage := none, encryptedMessage := "", nonce := "",
               senderPublicKey := "", isEncrypted := false,
               encryptedVoiceMessage := none, read := false, createdAt := 10 },
             { id := 2, sender := "alice", receiver := "bob", text := "b",
               voiceMessage := none, encryptedMessage := "", nonce := "",
               senderPublicKey := "", isEncrypted := false,
               encryptedVoiceMessage := none, read := false, createdAt := 20 }],
          nextId := 3, now := 50 } "bob" "alice" "" "1").2.1.messages,
        m.sender = "alice" → m.receiver = "bob" → m.read = true) :=
  ⟨⟨by decide, by decide⟩,
   (get_marks_all_unread
      { users := [], messages :=
          [{ id := 1, sender := "alice", receiver := "bob", text := "a",
             voiceMessage := none, encryptedMessage := "", nonce := "",
             senderPublicKey := "", isEncrypted := false,
             encryptedVoiceMessage := none, read := false, createdAt := 10 },
           { id := 2, sender := "alice", receiver := "bob", text := "b",
             voiceMessage := none, encryptedMessage := "", nonce := "",
             senderPublicKey := "", isEncrypted := false,
             encryptedVoiceMessage := none, read := false, createdAt := 20 }],
        nextId := 3, now := 50 } "bob" "alice" "" "1"
      (by decide) (by decide)).1⟩

/-- Claim C8: a `before` cursor that fails to parse as a date is ignored:
the request behaves exactly like the same request with no `before`
parameter (same page, same state change, same notifications). -/
theorem bad_before_cursor_ignored (db : DB) (u o lq s : String)
    (h : parseDateJS s = none) :
    getMessages db u o s lq = getMessages db u o "" lq := by
  have hf : beforeFilter s = beforeFilter "" := by
    funext t
    by_cases hs : s = ""
    · rw [hs]
    · simp [beforeFilter, hs, h]
  rw [getMessages, getMessages, hf]

/-- Claim C8 witness: the unparseable cursor "not-a-date" on a concrete
store returns the newest page, identical to the cursorless request. -/
theorem bad_before_cursor_ignored_witness :
    parseDateJS "not-a-date" = none ∧
    getMessages
      { users := [], messages :=
          [{ id := 1, sender := "alice", receiver := "bob", text := "a",
             voiceMessage := none, encryptedMessage := "", nonce := "",
             senderPublicKey := "", isEncrypted := false,
             encryptedVoiceMessage := none, read := false, createdAt := 10 }],
        nextId := 2, now := 50 } "bob" "alice" "not-a-date" ""
      = getMessages
      { users := [], messages :=
          [{ id := 1, sender := "alice", receiver := "bob", text := "a",
             voiceMessage := none, encryptedMessage := "", nonce := "",
             senderPublicKey := "", isEncrypted := false,
             encryptedVoiceMessage := none, read := false, createdAt := 10 }],
        nextId := 2, now := 50 } "bob" "alice" "" "" :=
  ⟨by decide,
   bad_before_cursor_ignored
     { users := [], messages :=
         [{ id := 1, sender := "alice", receiver := "bob", text := "a",
            voiceMessage := none, encryptedMessage := "", nonce := "",
            senderPublicKey := "", isEncrypted := false,
            encryptedVoiceMessage := none, read := false, createdAt := 10 }],
       nextId := 2, now := 50 } "bob" "alice" "" "not-a-date" (by decide)⟩

/-! Concrete seeded conversation used by the pagination scenario. -/

/-- A seeded plain-text message from alice to bob. -/
def seedMsg (i t : Nat) : Message :=
  { id := i, sender := "alice", receiver := "bob", text := "hi",
    voiceMessage := none, encryptedMessage := "", nonce := "",
    senderPublicKey := "", isEncrypted := false,
    encryptedVoiceMessage := none, read := false, createdAt := t }

/-- `seedMsg` after the recipient's history fetch marked it read. -/
def seedMsgRead (i t : Nat) : Message := { seedMsg i t with read := true }

/-- Two users and five seeded messages between them. -/
def pagedDB : DB :=
  { users :=
      [{ id := "alice", username := "Alice", blockedUsers := [], publicKey := "",
         e2eeEnabled := false, expoPushToken := "" },
       { id := "bob", username := "Bob", blockedUsers := [], publicKey := "",
         e2eeEnabled := false, expoPushToken := "" }],
    messages := [seedMsg 1 10, seedMsg 2 20, seedMsg 3 30, seedMsg 4 40, seedMsg 5 50],
    nextId := 6, now := 100 }

/-- State after bob's first history fetch. -/
def pagedDB1 : DB := (getMessages pagedDB "bob" "alice" "" "2").2.1

/-- State after bob's second history fetch. -/
def pagedDB2 : DB := (getMessages pagedDB1 "bob" "alice" "40" "2").2.1

/-- The five-message store with one hundred and one seeded messages, for the
negative-limit page-size refutation. -/
def bigSeed (n : Nat) : List Message :=
  (List.range n).map (fun i => seedMsg (i + 1) ((i + 1) * 10))

def bigDB : DB :=
  { users := pagedDB.users, messages := bigSeed 101, nextId := 102, now := 9999 }

/-- The number of messages in a history response. -/
def pageLen : GetResult → Nat
  | .badRequest => 0
  | .ok ms _ => ms.length

/-- Claim C7 counterexample: the request `limit=-101` is parsed to `-101`,
passed through `Math.min(-101, 100)` unchanged, and MongoDB `.limit(-101)`
returns a single batch of up to 101 documents — here all 101 seeded
messages, so the returned page exceeds the claimed hard ceiling of 100. -/
theorem negative_limit_exceeds_page_ceiling :
    effectiveLimit "-101" = -101 ∧
    pageLen (getMessages bigDB "bob" "alice" "" "-101").1 = 101 ∧
    100 < 101 := by
  decide

/-- Claim C7 (amended): the returned page size never exceeds the hard
ceiling of 100 for every request whose effective limit is non-negative
(i.e. the caller-requested limit is missing, unparseable, zero or
non-negative; a negative requested limit bypasses the ceiling); and on the
seeded five-message conversation, `limit=2` returns the two most recent
messages in chronological order with `hasMore=true`, and passing the oldest
returned timestamp as `before` pages through the rest (two then one) until
`hasMore=false`. -/
theorem history_page_capped_and_paginates :
    (∀ (db : DB) (u o bq lq : String) (ms : List Message) (hm : Bool),
        0 ≤ effectiveLimit lq →
        (getMessages db u o bq lq).1 = GetResult.ok ms hm → ms.length ≤ 100) ∧
    ((getMessages pagedDB "bob" "alice" "" "2").1
        = GetResult.ok [seedMsg 4 40, seedMsg 5 50] true) ∧
    ((getMessages pagedDB1 "bob" "alice" "40" "2").1
        = GetResult.ok [seedMsgRead 2 20, seedMsgRead 3 30] true) ∧
    ((getMessages pagedDB2 "bob" "alice" "20" "2").1
        = GetResult.ok [seedMsgRead 1 10] false) := by
  refine ⟨?_, by decide, by decide, by decide⟩
  intro db u o bq lq ms hm hnn h
  by_cases hg : o = "" ∨ o = u
  · simp [getMessages, hg] at h
  · simp only [getMessages, if_neg hg] at h
    obtain ⟨hms, _⟩ := GetResult.ok.inj h
    have h1 : ms.length ≤ (effectiveLimit lq).natAbs := by
      rw [← hms]
      simp only [List.length_map, List.length_reverse]
      exact List.length_take_le _ _
    have h2 : effectiveLimit lq ≤ (100 : Int) := by
      simp only [effectiveLimit]
      exact min_le_right _ _
    omega

/-- Claim C7 witness: the amended cap theorem applied to the first page of
the seeded scenario, whose effective limit 2 is non-negative. -/
theorem history_page_capped_witness :
    ((getMessages pagedDB "bob" "alice" "" "2").1
        = GetResult.ok [seedMsg 4 40, seedMsg 5 50] true) ∧
    ([seedMsg 4 40, seedMsg 5 50] : List Message).length ≤ 100 :=
  ⟨by decide,
   history_page_capped_and_paginates.1 pagedDB "bob" "alice" "" "2"
     [seedMsg 4 40, seedMsg 5 50] true (by decide) (by decide)⟩

/-! Push dispatcher lemmas. -/

theorem handlePushToken_token (oc : PushOutcome) (t : String) :
    (handlePushToken oc t).token = t := by
  cases oc with
  | httpOk e => cases e <;> rfl
  | httpFail s x => rfl
  | raised m => rfl

/-- Claim C9: the push dispatcher never attempts a malformed token (only
tokens matching the `ExponentPushToken` prefix format are attempted), a call
with only malformed tokens performs no delivery attempt, valid tokens are
attempted even when mixed with malformed ones, and per-token outcomes —
including thrown exceptions, which the per-token handler converts into
result values — never change the set of attempts or the caller-visible
completion of the call. -/
theorem push_filters_and_never_throws (dest : PushTo)
    (outcome : String → PushOutcome) :
    (attemptedTokens dest outcome
        = if pushToFalsy dest then []
          else (pushTokenList dest).filter isValidExpoToken) ∧
    (∀ t ∈ attemptedTokens dest outcome, isValidExpoToken t = true) ∧
    ((∀ t ∈ pushTokenList dest, isValidExpoToken t = false) →
        attemptedTokens dest outcome = []) ∧
    (∀ t ∈ pushTokenList dest, isValidExpoToken t = true →
        pushToFalsy dest = false → t ∈ attemptedTokens dest outcome) ∧
    (∀ oc2 : String → PushOutcome,
        attemptedTokens dest oc2 = attemptedTokens dest outcome ∧
        (sendExpoPush dest oc2).1 = (sendExpoPush dest outcome).1) := by
  have hmain : ∀ oc : String → PushOutcome,
      attemptedTokens dest oc
        = if pushToFalsy dest then []
          else (pushTokenList dest).filter isValidExpoToken := by
    intro oc
    unfold attemptedTokens sendExpoPush
    by_cases hf : pushToFalsy dest
    · simp [hf]
    · simp only [hf, if_false, Bool.false_eq_true, if_neg, not_false_iff]
      by_cases hv : (pushTokenList dest).filter isValidExpoToken = []
      · simp [hv]
      · simp only [hv, if_neg, not_false_iff]
        rw [List.map_map]
        have : ((fun r => r.token) ∘ fun t => handlePushToken (oc t) t) = id := by
          funext t
          exact handlePushToken_token (oc t) t
        rw [this, List.map_id]
  refine ⟨hmain outcome, ?_, ?_, ?_, ?_⟩
  · intro t ht
    rw [hmain outcome] at ht
    by_cases hf : pushToFalsy dest
    · simp [hf] at ht
    · rw [if_neg hf] at ht
      exact (List.mem_filter.mp ht).2
  · intro hall
    rw [hmain outcome]
    by_cases hf : pushToFalsy dest
    · simp [hf]
    · rw [if_neg hf, List.filter_eq_nil_iff]
      intro a ha
      simp [hall a ha]
  · intro t ht hv hf
    rw [hmain outcome, if_neg (by simp [hf])]
    exact List.mem_filter.mpr ⟨ht, hv⟩
  · intro oc2
    constructor
    · rw [hmain oc2, hmain outcome]
    · rfl

/-- Claim C9 witness: one valid token among malformed ones is still
attempted, and the malformed-only call attempts nothing, with every
per-token network call raising. -/
theorem push_filters_witness :
    ("ExponentPushToken[a]"
        ∈ attemptedTokens
            (PushTo.multi ["bad-token", "ExponentPushToken[a]", ""])
            (fun _ => PushOutcome.raised "network down")) ∧
    (attemptedTokens (PushTo.multi ["bad-token", ""])
        (fun _ => PushOutcome.raised "network down") = []) :=
  ⟨(push_filters_and_never_throws
      (PushTo.multi ["bad-token", "ExponentPushToken[a]", ""])
      (fun _ => PushOutcome.raised "network down")).2.2.2.1
      "ExponentPushToken[a]" (by decide) (by decide) (by decide),
   (push_filters_and_never_throws
      (PushTo.multi ["bad-token", ""])
      (fun _ => PushOutcome.raised "network down")).2.2.1
      (by decide)⟩

/-! Concrete fixtures for the E2EE-gate claims. -/

/-- Sender with E2EE enabled and public key on file. -/
def c1Ann : User :=
  { id := "ann", username := "Ann", blockedUsers := [], publicKey := "KA",
    e2eeEnabled := true, expoPushToken := "" }

/-- Receiver who has NOT enabled E2EE. -/
def c1Ben : User :=
  { id := "ben", username := "Ben", blockedUsers := [], publicKey := "",
    e2eeEnabled := false, expoPushToken := "" }

def c1db : DB := { users := [c1Ann, c1Ben], messages := [], nextId := 1, now := 7 }

def c1EncVoice : EncVoiceData :=
  { cipherText := "c1", nonce := "n1", senderPublicKey := "KA", duration := 3 }

/-- Claim C1 counterexample: an encrypted voice payload sent through
POST /messages/encrypted-voice to a receiver whose `e2eeEnabled` is false is
accepted and persisted — the route never checks the flag, contradicting the
claim that every transport rejects it with the not-E2EE-ready error. -/
theorem encrypted_voice_skips_e2ee_gate :
    (findUser c1db "ben").map (fun u => u.e2eeEnabled) = some false ∧
    (httpPostEncryptedVoice c1db "ann"
        { receiverId := "ben", encryptedVoiceMessage := some c1EncVoice,
          isEncrypted := true }).1 = SendOutcome.created 1 ∧
    (httpPostEncryptedVoice c1db "ann"
        { receiverId := "ben", encryptedVoiceMessage := some c1EncVoice,
          isEncrypted := true }).2.1.messages.length = 1 := by
  decide

/-- Claim C1 (amended): on the real-time send path and on POST /messages an
encrypted payload to an existing receiver with E2EE disabled fails with the
distinguishable E2EE_NOT_ENABLED error and persists nothing; but
POST /messages/encrypted-voice performs no such check and persists the
message for the same receiver. -/
theorem e2ee_gate_two_of_three_transports (db : DB) (uid : String)
    (p : SendPayload) (r : User)
    (hr0 : p.receiverId ≠ "") (hself : p.receiverId ≠ uid)
    (hrecv : findUser db p.receiverId = some r)
    (hct : p.cipherText ≠ "") (hn : p.nonce ≠ "")
    (hne : r.e2eeEnabled = false) :
    socketSendMessage db uid p = (.errE2EENotEnabled, db, []) ∧
    httpPostMessages db uid p = (.errE2EENotEnabled, db, []) ∧
    (∀ (ev : EncVoiceData) (s : User),
      ev.cipherText ≠ "" → ev.nonce ≠ "" → ev.senderPublicKey ≠ "" →
      r.blockedUsers.contains uid = false →
      findUser db uid = some s →
      s.blockedUsers.contains p.receiverId = false →
      (httpPostEncryptedVoice db uid
          { receiverId := p.receiverId, encryptedVoiceMessage := some ev,
            isEncrypted := true }).1 = .created db.nextId ∧
      (httpPostEncryptedVoice db uid
          { receiverId := p.receiverId, encryptedVoiceMessage := some ev,
            isEncrypted := true }).2.1.messages.length
        = db.messages.length + 1) := by
  refine ⟨?_, ?_, ?_⟩
  · simp [socketSendMessage, hr0, hself, hrecv, hct, hn, hne]
  · simp [httpPostMessages, hr0, hrecv, hct, hn, hne]
  · intro ev s hect hen hek hbr hs hbs
    have hbr2 : uid ∉ r.blockedUsers := by simpa using hbr
    have hbs2 : p.receiverId ∉ s.blockedUsers := by simpa using hbs
    constructor
    · simp [httpPostEncryptedVoice, hr0, hrecv, hect, hen, hek, hbr2, hs, hbs2]
    · simp [httpPostEncryptedVoice, hr0, hrecv, hect, hen, hek, hbr2, hs, hbs2,
            persistMsg]

/-- Claim C1 witness: the amended theorem at the concrete fixture — both
checked transports reject, the encrypted-voice transport persists. -/
theorem e2ee_gate_witness :
    socketSendMessage c1db "ann"
        { receiverId := "ben", voiceMessage := none, cipherText := "c1",
          nonce := "n1", senderPublicKey := "KA" }
      = (SendOutcome.errE2EENotEnabled, c1db, []) ∧
    (httpPostEncryptedVoice c1db "ann"
        { receiverId := "ben", encryptedVoiceMessage := some c1EncVoice,
          isEncrypted := true }).1 = SendOutcome.created 1 :=
  have h := e2ee_gate_two_of_three_transports c1db "ann"
    { receiverId := "ben", voiceMessage := none, cipherText := "c1",
      nonce := "n1", senderPublicKey := "KA" } c1Ben
    (by decide) (by decide) (by decide) (by decide) (by decide) (by decide)
  ⟨h.1, (h.2.2 c1EncVoice c1Ann (by decide) (by decide) (by decide)
      (by decide) (by decide) (by decide)).1⟩

/-- Empty store used by the validation-order and delete counterexamples. -/
def emptyDB : DB := { users := [], messages := [], nextId := 1, now := 0 }

/-- Claim C2 counterexample: a request whose receiver equals the sender AND
whose payload is missing is rejected with the payload error, not the
self-messaging error — the payload check runs before the self check. -/
theorem self_with_missing_payload_gets_payload_error :
    (socketSendMessage emptyDB "ann"
        { receiverId := "ann", voiceMessage := none, cipherText := "",
          nonce := "", senderPublicKey := "" }).1
      = SendOutcome.errPayloadRequired ∧
    SendOutcome.errPayloadRequired ≠ SendOutcome.errSelfMessage := by
  decide

/-- Claim C2 (amended): the receiver-present check is decided first, but the
payload check is decided before the self-messaging check on the real-time
path — a self-addressed request with a missing payload gets the payload
error, and self-messaging is rejected only when the payload check passes;
POST /messages performs no self-messaging check at all and accepts a
well-formed encrypted send to oneself. -/
theorem validation_order_payload_before_self (db : DB) (uid : String)
    (p : SendPayload) :
    (p.receiverId = "" →
        socketSendMessage db uid p = (.errReceiverRequired, db, [])) ∧
    (p.receiverId ≠ "" → ¬(p.cipherText ≠ "" ∧ p.nonce ≠ "") →
        p.voiceMessage = none →
        socketSendMessage db uid p = (.errPayloadRequired, db, [])) ∧
    (p.receiverId ≠ "" →
        ((p.cipherText ≠ "" ∧ p.nonce ≠ "") ∨ p.voiceMessage ≠ none) →
        p.receiverId = uid →
        socketSendMessage db uid p = (.errSelfMessage, db, [])) ∧
    (∀ u : User, uid ≠ "" → findUser db uid = some u →
        u.blockedUsers.contains uid = false → p.receiverId = uid →
        p.cipherText ≠ "" → p.nonce ≠ "" → p.senderPublicKey ≠ "" →
        u.e2eeEnabled = true →
        (httpPostMessages db uid p).1 = .created db.nextId) := by
  refine ⟨?_, ?_, ?_, ?_⟩
  · intro h0
    simp [socketSendMessage, h0]
  · intro h0 hng hvm
    simp [socketSendMessage, h0, hng, hvm]
  · intro h0 hvar hself
    have h02 : uid ≠ "" := hself ▸ h0
    rcases hvar with h | h
    · simp [socketSendMessage, h0, h02, hself, h.1, h.2]
    · simp [socketSendMessage, h0, h02, hself, h]
  · intro u huid hu hub hself hct hn hk he
    have hub2 : uid ∉ u.blockedUsers := by simpa using hub
    simp [httpPostMessages, hself, huid, hu, hub2, hct, hn, hk, he]

/-- Claim C2 witness: the amended theorem at concrete inputs — the payload
error wins over the self check, and an HTTP self-send is accepted. -/
theorem validation_order_witness :
    socketSendMessage emptyDB "ann"
        { receiverId := "ann", voiceMessage := none, cipherText := "",
          nonce := "", senderPublicKey := "" }
      = (SendOutcome.errPayloadRequired, emptyDB, []) ∧
    (httpPostMessages
        { users := [{ id := "ann", username := "Ann", blockedUsers := [],
                      publicKey := "KA", e2eeEnabled := true,
                      expoPushToken := "" }],
          messages := [], nextId := 1, now := 0 } "ann"
        { receiverId := "ann", voiceMessage := none, cipherText := "c1",
          nonce := "n1", senderPublicKey := "KA" }).1
      = SendOutcome.created 1 :=
  ⟨(validation_order_payload_before_self emptyDB "ann"
      { receiverId := "ann", voiceMessage := none, cipherText := "",
        nonce := "", senderPublicKey := "" }).2.1
      (by decide) (by decide) (by decide),
   (validation_order_payload_before_self
      { users := [{ id := "ann", username := "Ann", blockedUsers := [],
                    publicKey := "KA", e2eeEnabled := true,
                    expoPushToken := "" }],
        messages := [], nextId := 1, now := 0 } "ann"
      { receiverId := "ann", voiceMessage := none, cipherText := "c1",
        nonce := "n1", senderPublicKey := "KA" }).2.2.2
      { id := "ann", username := "Ann", blockedUsers := [], publicKey := "KA",
        e2eeEnabled := true, expoPushToken := "" }
      (by decide) (by decide) (by decide) (by decide) (by decide) (by decide)
      (by decide) (by decide)⟩

/-- Claim C3 counterexample: deleting a non-existent message as a caller who
(vacuously) is not its sender fails with the not-found error, not the
authorization error — the existence check runs first on both transports. -/
theorem delete_missing_message_is_not_found :
    findMsg emptyDB 1 = none ∧
    (httpDeleteMessage emptyDB "ann" 1).1 = DeleteOutcome.errNotFound ∧
    (socketDeleteMessage emptyDB "ann" (some 1)).1 = DeleteOutcome.errNotFound ∧
    DeleteOutcome.errNotFound ≠ DeleteOutcome.errUnauthorized := by
  decide

/-- Claim C3 (amended): when a message with the given id exists and the
caller is not its sender, both delete transports fail with the authorization
error and remove nothing; when no such message exists, both fail with the
not-found error and remove nothing. -/
theorem delete_requires_sender (db : DB) (uid : String) (mid : Nat) :
    (∀ m : Message, findMsg db mid = some m → m.sender ≠ uid →
        socketDeleteMessage db uid (some mid) = (.errUnauthorized, db, []) ∧
        httpDeleteMessage db uid mid = (.errUnauthorized, db, [])) ∧
    (findMsg db mid = none →
        socketDeleteMessage db uid (some mid) = (.errNotFound, db, []) ∧
        httpDeleteMessage db uid mid = (.errNotFound, db, [])) := by
  constructor
  · intro m hm hs
    constructor
    · simp [socketDeleteMessage, hm, hs]
    · simp [httpDeleteMessage, hm, hs]
  · intro hnone
    constructor
    · simp [socketDeleteMessage, hnone]
    · simp [httpDeleteMessage, hnone]

/-- A message sent by bob, used to exercise the delete authorization check. -/
def c3Msg : Message :=
  { id := 1, sender := "bob", receiver := "ann", text := "hello",
    voiceMessage := none, encryptedMessage := "", nonce := "",
    senderPublicKey := "", isEncrypted := false,
    encryptedVoiceMessage := none, read := false, createdAt := 5 }

def c3db : DB := { users := [], messages := [c3Msg], nextId := 2, now := 9 }

/-- Claim C3 witness: ann cannot delete bob's message on either transport,
and nothing is removed. -/
theorem delete_requires_sender_witness :
    socketDeleteMessage c3db "ann" (some 1)
      = (DeleteOutcome.errUnauthorized, c3db, []) ∧
    httpDeleteMessage c3db "ann" 1 = (DeleteOutcome.errUnauthorized, c3db, []) :=
  (delete_requires_sender c3db "ann" 1).1 c3Msg (by decide) (by decide)

/-! Fixtures for the sender-key snapshot claim. -/

def c4Ann : User :=
  { id := "ann", username := "Ann", blockedUsers := [], publicKey := "K2",
    e2eeEnabled := true, expoPushToken := "" }

def c4Ben : User :=
  { id := "ben", username := "Ben", blockedUsers := [], publicKey := "KB",
    e2eeEnabled := true, expoPushToken := "" }

def c4db : DB := { users := [c4Ann, c4Ben], messages := [], nextId := 1, now := 7 }

/-- A socket send that omits the `senderPublicKey` field. -/
def c4pay : SendPayload :=
  { receiverId := "ben", voiceMessage := none, cipherText := "c1",
    nonce := "n1", senderPublicKey := "" }

/-- The message GET /messages returns for the keyless send: the missing
snapshot has been filled from the sender's CURRENT `publicKey`. -/
def c4fetched : Message :=
  { id := 1, sender := "ann", receiver := "ben", text := "",
    voiceMessage := none, encryptedMessage := "c1", nonce := "n1",
    senderPublicKey := "K2", isEncrypted := true,
    encryptedVoiceMessage := none, read := false, createdAt := 7 }

/-- Claim C4 counterexample: on the real-time send path a client that omits
`senderPublicKey` gets its encrypted message persisted with NO key snapshot,
and the subsequent history fetch fills the gap from the sender's current
(re-fetched) public key — contradicting both halves of the claim on that
path. -/
theorem socket_send_can_omit_key_snapshot :
    (socketSendMessage c4db "ann" c4pay).1 = SendOutcome.created 1 ∧
    (socketSendMessage c4db "ann" c4pay).2.1.messages.map
        (fun m => m.senderPublicKey) = [""] ∧
    (getMessages (socketSendMessage c4db "ann" c4pay).2.1
        "ben" "ann" "" "").1 = GetResult.ok [c4fetched] false ∧
    c4fetched.senderPublicKey = c4Ann.publicKey := by
  decide

/-- Claim C4 (amended): POST /messages always captures a non-empty sender
key snapshot on the created record (request-supplied, else the sender's
current key, else the send is rejected); the real-time path stores exactly
the client-supplied value, which may be empty; and a history fetch returns
the stored snapshot untouched whenever one is present, falling back to the
sender's current key only when the stored snapshot is absent. -/
theorem sender_key_snapshot_policy (db : DB) (uid : String) (p : SendPayload) :
    (∀ mid : Nat, p.cipherText ≠ "" → p.nonce ≠ "" →
        (httpPostMessages db uid p).1 = .created mid →
        ∃ m : Message,
          (httpPostMessages db uid p).2.1.messages = db.messages ++ [m] ∧
          m.isEncrypted = true ∧ m.senderPublicKey ≠ "") ∧
    (∀ mid : Nat, p.cipherText ≠ "" → p.nonce ≠ "" →
        (socketSendMessage db uid p).1 = .created mid →
        (socketSendMessage db uid p).2.1.messages.map
            (fun m => m.senderPublicKey)
          = db.messages.map (fun m => m.senderPublicKey)
              ++ [p.senderPublicKey]) ∧
    (∀ m : Message, m.senderPublicKey ≠ "" → normalizeMsg db m = m) := by
  refine ⟨?_, ?_, ?_⟩
  · intro mid hct hn h
    by_cases h0 : p.receiverId = ""
    · simp [httpPostMessages, h0] at h
    · rcases hr : findUser db p.receiverId with _ | r
      · simp [httpPostMessages, h0, hct, hn, hr] at h
      · by_cases he : r.e2eeEnabled
        · by_cases hbr : uid ∈ r.blockedUsers
          · simp [httpPostMessages, h0, hct, hn, hr, he, hbr] at h
          · rcases hs : findUser db uid with _ | snd
            · simp [httpPostMessages, h0, hct, hn, hr, he, hbr, hs] at h
            · by_cases hbs : p.receiverId ∈ snd.blockedUsers
              · simp [httpPostMessages, h0, hct, hn, hr, he, hbr, hs, hbs] at h
              · by_cases hk :
                  (if p.senderPublicKey = "" then snd.publicKey
                   else p.senderPublicKey) = ""
                · simp [httpPostMessages, h0, hct, hn, hr, he, hbr, hs, hbs,
                        hk] at h
                · let mNew : Message :=
                    { id := db.nextId, sender := uid, receiver := p.receiverId,
                      text := "", voiceMessage := none,
                      encryptedMessage := p.cipherText, nonce := p.nonce,
                      senderPublicKey := if p.senderPublicKey = "" then snd.publicKey else p.senderPublicKey,
                      isEncrypted := true, encryptedVoiceMessage := none,
                      read := false, createdAt := db.now }
                  refine ⟨mNew, ?_, rfl, hk⟩
                  simp [httpPostMessages, h0, hct, hn, hr, he, hbr, hs, hbs,
                        hk, persistMsg, mNew]
        · simp [httpPostMessages, h0, hct, hn, hr, he] at h
  · intro mid hct hn h
    by_cases h0 : p.receiverId = ""
    · simp [socketSendMessage, h0] at h
    · by_cases hself : p.receiverId = uid
      · simp [socketSendMessage, h0, hct, hn, hself] at h
        split at h <;> simp at h
      · rcases hr : findUser db p.receiverId with _ | r
        · simp [socketSendMessage, h0, hct, hn, hself, hr] at h
        · by_cases he : r.e2eeEnabled
          · by_cases hbr : uid ∈ r.blockedUsers
            · simp [socketSendMessage, h0, hct, hn, hself, hr, he, hbr] at h
            · rcases hs : findUser db uid with _ | snd
              · simp [socketSendMessage, h0, hct, hn, hself, hr, he, hbr,
                      hs] at h
              · by_cases hbs : p.receiverId ∈ snd.blockedUsers
                · simp [socketSendMessage, h0, hct, hn, hself, hr, he, hbr,
                        hs, hbs] at h
                · by_cases hkey : p.senderPublicKey = ""
                  · simp [socketSendMessage, h0, hct, hn, hself, hr, he, hbr,
                          hs, hbs, hkey, persistMsg]
                  · simp [socketSendMessage, h0, hct, hn, hself, hr, he, hbr,
                          hs, hbs, hkey, persistMsg]
          · simp [socketSendMessage, h0, hct, hn, hself, hr, he] at h
  · intro m hk
    simp [normalizeMsg, hk]

/-- Claim C4 witness: a socket send WITH the key supplied stores exactly
that value, and the fetch normalization leaves a present snapshot alone. -/
theorem sender_key_snapshot_witness :
    ((socketSendMessage c4db "ann"
        { receiverId := "ben", voiceMessage := none, cipherText := "c1",
          nonce := "n1", senderPublicKey := "K2" }).2.1.messages.map
        (fun m => m.senderPublicKey) = [("K2" : String)]) ∧
    normalizeMsg c4db c4fetched = c4fetched :=
  ⟨(sender_key_snapshot_policy c4db "ann"
      { receiverId := "ben", voiceMessage := none, cipherText := "c1",
        nonce := "n1", senderPublicKey := "K2" }).2.1 1
      (by decide) (by decide) (by decide),
   (sender_key_snapshot_policy c4db "ann" c4pay).2.2 c4fetched (by decide)⟩

/-! Case lemmas: when the receiver's block list contains the sender, every
send handler stops at one of its pre-persist checks. -/

theorem socketSendMessage_blocked_cases (db : DB) (uid : String)
    (p : SendPayload) (r : User)
    (hrecv : findUser db p.receiverId = some r)
    (hb : uid ∈ r.blockedUsers) :
    socketSendMessage db uid p = (.errReceiverRequired, db, []) ∨
    socketSendMessage db uid p = (.errPayloadRequired, db, []) ∨
    socketSendMessage db uid p = (.errSelfMessage, db, []) ∨
    socketSendMessage db uid p = (.errE2EENotEnabled, db, []) ∨
    socketSendMessage db uid p = (.errBlockedByReceiver, db, []) := by
  by_cases h0 : p.receiverId = ""
  · exact Or.inl (by simp [socketSendMessage, h0])
  · by_cases hp : ¬(p.cipherText ≠ "" ∧ p.nonce ≠ "") ∧ p.voiceMessage = none
    · exact Or.inr (Or.inl (by simp [socketSendMessage, h0, hp.1, hp.2]))
    · by_cases hself : p.receiverId = uid
      · refine Or.inr (Or.inr (Or.inl ?_))
        rcases not_and_or.mp hp with h | h
        · rcases (not_not.mp h) with ⟨h1, h2⟩
          simp [socketSendMessage, h0, hself ▸ h0, hself, h1, h2]
        · simp [socketSendMessage, h0, hself ▸ h0, hself, h]
      · by_cases he : (p.cipherText ≠ "" ∧ p.nonce ≠ "") ∧ ¬r.e2eeEnabled
        · refine Or.inr (Or.inr (Or.inr (Or.inl ?_)))
          simp [socketSendMessage, h0, hself, hrecv, he.1.1, he.1.2, he.2]
        · refine Or.inr (Or.inr (Or.inr (Or.inr ?_)))
          rcases not_and_or.mp hp with h | h
          · rcases (not_not.mp h) with ⟨h1, h2⟩
            have he2 : r.e2eeEnabled = true := by
              rcases not_and_or.mp he with h3 | h3
              · exact absurd ⟨h1, h2⟩ h3
              · simpa using not_not.mp h3
            simp [socketSendMessage, h0, hself, hrecv, h1, h2, he2, hb]
          · by_cases hct : p.cipherText ≠ "" ∧ p.nonce ≠ ""
            · have he2 : r.e2eeEnabled = true := by
                rcases not_and_or.mp he with h3 | h3
                · exact absurd hct h3
                · simpa using not_not.mp h3
              simp [socketSendMessage, h0, hself, hrecv, hct.1, hct.2, he2, hb]
            · rcases not_and_or.mp hct with h1 | h1 <;>
                simp [socketSendMessage, h0, hself, hrecv, h, hb,
                      not_not.mp h1]

theorem httpPostMessages_blocked_cases (db : DB) (uid : String)
    (p : SendPayload) (r : User)
    (hrecv : findUser db p.receiverId = some r)
    (hb : uid ∈ r.blockedUsers) :
    httpPostMessages db uid p = (.errReceiverRequired, db, []) ∨
    httpPostMessages db uid p = (.errPayloadRequired, db, []) ∨
    httpPostMessages db uid p = (.errE2EENotEnabled, db, []) ∨
    httpPostMessages db uid p = (.errBlockedByReceiver, db, []) := by
  by_cases h0 : p.receiverId = ""
  · exact Or.inl (by simp [httpPostMessages, h0])
  · by_cases hp : ¬(p.cipherText ≠ "" ∧ p.nonce ≠ "") ∧ p.voiceMessage = none
    · exact Or.inr (Or.inl (by simp [httpPostMessages, h0, hp.1, hp.2]))
    · by_cases he : (p.cipherText ≠ "" ∧ p.nonce ≠ "") ∧ ¬r.e2eeEnabled
      · refine Or.inr (Or.inr (Or.inl ?_))
        simp [httpPostMessages, h0, hrecv, he.1.1, he.1.2, he.2]
      · refine Or.inr (Or.inr (Or.inr ?_))
        rcases not_and_or.mp hp with h | h
        · rcases (not_not.mp h) with ⟨h1, h2⟩
          have he2 : r.e2eeEnabled = true := by
            rcases not_and_or.mp he with h3 | h3
            · exact absurd ⟨h1, h2⟩ h3
            · simpa using not_not.mp h3
          simp [httpPostMessages, h0, hrecv, h1, h2, he2, hb]
        · by_cases hct : p.cipherText ≠ "" ∧ p.nonce ≠ ""
          · have he2 : r.e2eeEnabled = true := by
              rcases not_and_or.mp he with h3 | h3
              · exact absurd hct h3
              · simpa using not_not.mp h3
            simp [httpPostMessages, h0, hrecv, hct.1, hct.2, he2, hb]
          · rcases not_and_or.mp hct with h1 | h1 <;>
              simp [httpPostMessages, h0, hrecv, h, hb, not_not.mp h1]

theorem httpPostEncryptedVoice_blocked_cases (db : DB) (uid : String)
    (pv : EncVoicePayload) (r : User)
    (hrecv : findUser db pv.receiverId = some r)
    (hb : uid ∈ r.blockedUsers) :
    httpPostEncryptedVoice db uid pv = (.errReceiverRequired, db, []) ∨
    httpPostEncryptedVoice db uid pv = (.errEncVoiceDataRequired, db, []) ∨
    httpPostEncryptedVoice db uid pv = (.errEncVoiceFieldsMissing, db, []) ∨
    httpPostEncryptedVoice db uid pv = (.errBlockedByReceiver, db, []) := by
  by_cases h0 : pv.receiverId = ""
  · exact Or.inl (by simp [httpPostEncryptedVoice, h0])
  · rcases hev : pv.encryptedVoiceMessage with _ | ev
    · exact Or.inr (Or.inl (by simp [httpPostEncryptedVoice, h0, hev]))
    · by_cases hflag : pv.isEncrypted
      · by_cases hfld : ev.cipherText = "" ∨ ev.nonce = "" ∨ ev.senderPublicKey = ""
        · refine Or.inr (Or.inr (Or.inl ?_))
          simp only [httpPostEncryptedVoice, h0, hev, hflag]
          simp [hfld]
        · refine Or.inr (Or.inr (Or.inr ?_))
          simp only [httpPostEncryptedVoice, h0, hev, hflag]
          simp [hfld, hrecv, hb]
      · exact Or.inr (Or.inl (by simp [httpPostEncryptedVoice, h0, hev, hflag]))

theorem httpPostVoice_blocked_cases (upload : String → String × Option String)
    (db : DB) (uid rid : String) (file : Option String) (dur : Nat) (r : User)
    (hrecv : findUser db rid = some r)
    (hb : uid ∈ r.blockedUsers) :
    httpPostVoice upload db uid rid file dur = (.errReceiverRequired, db, []) ∨
    httpPostVoice upload db uid rid file dur = (.errVoiceFileRequired, db, []) ∨
    httpPostVoice upload db uid rid file dur
      = (.errBlockedByReceiver, db, []) := by
  by_cases h0 : rid = ""
  · exact Or.inl (by simp [httpPostVoice, h0])
  · rcases hf : file with _ | path
    · exact Or.inr (Or.inl (by simp [httpPostVoice, h0, hf]))
    · exact Or.inr (Or.inr (by simp [httpPostVoice, h0, hf, hrecv, hb]))

/-- Claim C5 (amended): whenever the receiver's block list contains the
sender, every send transport (real-time, POST /messages, POST /messages/voice,
POST /messages/encrypted-voice) fails and leaves the message store untouched
with no emits; the failure is specifically the blocked-type error once the
checks that precede the block check pass — but an encrypted send to a blocked
receiver who has not enabled E2EE fails with the E2EE error instead. -/
theorem blocked_receiver_never_persists (db : DB) (uid : String) (r : User) :
    (∀ p : SendPayload, findUser db p.receiverId = some r →
        uid ∈ r.blockedUsers →
        (socketSendMessage db uid p).2 = (db, []) ∧
        (∀ i, (socketSendMessage db uid p).1 ≠ .created i) ∧
        (httpPostMessages db uid p).2 = (db, []) ∧
        (∀ i, (httpPostMessages db uid p).1 ≠ .created i)) ∧
    (∀ pv : EncVoicePayload, findUser db pv.receiverId = some r →
        uid ∈ r.blockedUsers →
        (httpPostEncryptedVoice db uid pv).2 = (db, []) ∧
        (∀ i, (httpPostEncryptedVoice db uid pv).1 ≠ .created i)) ∧
    (∀ (upload : String → String × Option String) (rid : String)
        (file : Option String) (dur : Nat),
        findUser db rid = some r → uid ∈ r.blockedUsers →
        (httpPostVoice upload db uid rid file dur).2 = (db, []) ∧
        (∀ i, (httpPostVoice upload db uid rid file dur).1 ≠ .created i)) ∧
    (∀ p : SendPayload, p.receiverId ≠ "" → p.receiverId ≠ uid →
        findUser db p.receiverId = some r → uid ∈ r.blockedUsers →
        ((p.cipherText ≠ "" ∧ p.nonce ≠ "") → r.e2eeEnabled = true) →
        ((p.cipherText ≠ "" ∧ p.nonce ≠ "") ∨ p.voiceMessage ≠ none) →
        (socketSendMessage db uid p).1 = .errBlockedByReceiver ∧
        (httpPostMessages db uid p).1 = .errBlockedByReceiver) := by
  refine ⟨?_, ?_, ?_, ?_⟩
  · intro p hrecv hb
    have hsoc := socketSendMessage_blocked_cases db uid p r hrecv hb
    have http := httpPostMessages_blocked_cases db uid p r hrecv hb
    refine ⟨?_, ?_, ?_, ?_⟩
    · rcases hsoc with h | h | h | h | h <;> rw [h]
    · rcases hsoc with h | h | h | h | h <;> rw [h] <;> intro i <;> simp
    · rcases http with h | h | h | h <;> rw [h]
    · rcases http with h | h | h | h <;> rw [h] <;> intro i <;> simp
  · intro pv hrecv hb
    have hc := httpPostEncryptedVoice_blocked_cases db uid pv r hrecv hb
    refine ⟨?_, ?_⟩
    · rcases hc with h | h | h | h <;> rw [h]
    · rcases hc with h | h | h | h <;> rw [h] <;> intro i <;> simp
  · intro upload rid file dur hrecv hb
    have hc := httpPostVoice_blocked_cases upload db uid rid file dur r hrecv hb
    refine ⟨?_, ?_⟩
    · rcases hc with h | h | h <;> rw [h]
    · rcases hc with h | h | h <;> rw [h] <;> intro i <;> simp
  · intro p h0 hself hrecv hb hpv hvar
    constructor
    · rcases hvar with h | h
      · simp [socketSendMessage, h0, hself, hrecv, h.1, h.2, hpv h, hb]
      · by_cases hct : p.cipherText ≠ "" ∧ p.nonce ≠ ""
        · simp [socketSendMessage, h0, hself, hrecv, hct.1, hct.2, hpv hct, hb]
        · rcases not_and_or.mp hct with h1 | h1 <;>
            simp [socketSendMessage, h0, hself, hrecv, h, hb, not_not.mp h1]
    · rcases hvar with h | h
      · simp [httpPostMessages, h0, hrecv, h.1, h.2, hpv h, hb]
      · by_cases hct : p.cipherText ≠ "" ∧ p.nonce ≠ ""
        · simp [httpPostMessages, h0, hrecv, hct.1, hct.2, hpv hct, hb]
        · rcases not_and_or.mp hct with h1 | h1 <;>
            simp [httpPostMessages, h0, hrecv, h, hb, not_not.mp h1]

/-! Fixtures for the blocked-receiver claim. -/

def c5Ann : User :=
  { id := "ann", username := "Ann", blockedUsers := [], publicKey := "KA",
    e2eeEnabled := true, expoPushToken := "" }

/-- Receiver who blocks ann and has NOT enabled E2EE. -/
def c5Ben : User :=
  { id := "ben", username := "Ben", blockedUsers := ["ann"], publicKey := "",
    e2eeEnabled := false, expoPushToken := "" }

/-- Receiver who blocks ann and HAS enabled E2EE. -/
def c5Cid : User :=
  { id := "cid", username := "Cid", blockedUsers := ["ann"], publicKey := "KC",
    e2eeEnabled := true, expoPushToken := "" }

def c5db : DB :=
  { users := [c5Ann, c5Ben, c5Cid], messages := [], nextId := 1, now := 3 }

/-- Claim C5 counterexample: an encrypted send to ben — whose block list
contains the sender but who has not enabled E2EE — fails with the E2EE
error, not a blocked-type error, because the E2EE check runs first. -/
theorem blocked_encrypted_send_gets_e2ee_error :
    ("ann" ∈ c5Ben.blockedUsers) ∧
    (socketSendMessage c5db "ann"
        { receiverId := "ben", voiceMessage := none, cipherText := "c1",
          nonce := "n1", senderPublicKey := "KA" }).1
      = SendOutcome.errE2EENotEnabled ∧
    SendOutcome.errE2EENotEnabled ≠ SendOutcome.errBlockedByReceiver ∧
    (httpPostMessages c5db "ann"
        { receiverId := "ben", voiceMessage := none, cipherText := "c1",
          nonce := "n1", senderPublicKey := "KA" }).1
      = SendOutcome.errE2EENotEnabled := by
  decide

/-- Claim C5 witness: the amended theorem at the concrete fixture — a send
to cid (blocker with E2EE enabled) fails with the blocked error on both
checked transports, and a send to ben persists nothing. -/
theorem blocked_receiver_witness :
    ((socketSendMessage c5db "ann"
        { receiverId := "cid", voiceMessage := none, cipherText := "c1",
          nonce := "n1", senderPublicKey := "KA" }).1
      = SendOutcome.errBlockedByReceiver ∧
    (httpPostMessages c5db "ann"
        { receiverId := "cid", voiceMessage := none, cipherText := "c1",
          nonce := "n1", senderPublicKey := "KA" }).1
      = SendOutcome.errBlockedByReceiver) ∧
    (socketSendMessage c5db "ann"
        { receiverId := "ben", voiceMessage := none, cipherText := "c1",
          nonce := "n1", senderPublicKey := "KA" }).2 = (c5db, []) :=
  ⟨(blocked_receiver_never_persists c5db "ann" c5Cid).2.2.2
      { receiverId := "cid", voiceMessage := none, cipherText := "c1",
        nonce := "n1", senderPublicKey := "KA" }
      (by decide) (by decide) (by decide) (by decide)
      (fun _ => by decide) (Or.inl (by decide)),
   ((blocked_receiver_never_persists c5db "ann" c5Ben).1
      { receiverId := "ben", voiceMessage := none, cipherText := "c1",
        nonce := "n1", senderPublicKey := "KA" }
      (by decide) (by decide)).1⟩
